import Mathlib

/-!
# Verification of the MMM agent frontend controller and spec-modelled backend core

Shallow embedding of the MMM agent repository: the vanilla-JS frontend
controller (file upload drop handler, pipeline status poller, stage UI
updater, checkpoint decision sender), the React Data Studio status poller,
the chart helper `hillFunction`, and — where the backend Python engine is
absent from the sources — definitions modelled from the specification
(saturation transform validation, carryover transform, checkpoint gate,
budget optimizer revalidation, orchestrator stage advancement).

JavaScript numbers are modelled as real numbers (`ℝ`, with `Real.rpow` for
`Math.pow`) where general exponents occur, and as rationals (`ℚ`) or
integers (`ℤ`) elsewhere.
-/

/-! ## String constants used by the frontend controller -/

def completedStatus : String := "completed"

def failedStatus : String := "failed"

def stoppedStatus : String := "stopped"

def abortedStatus : String := "aborted"

def runningStatus : String := "running"

def pendingStatus : String := "pending"

def awaitingCheckpointStatus : String := "awaiting_checkpoint"

def csvExtension : String := ".csv"

def csvErrorMessage : String := "Please upload a CSV file"

def statusCheckFailedMessage : String := "Status check failed"

def errorKind : String := "error"

def infoKind : String := "info"

/-! ## The chart helper `hillFunction` (app.js)

`function hillFunction(spend, halfSaturation, slope) {
    return 100 * Math.pow(spend, slope) / (Math.pow(halfSaturation, slope) + Math.pow(spend, slope));
}`

`Math.pow` on non-negative bases is modelled by `Real.rpow` (the `ℝ`
power with real exponent); note both give `0 ^ a = 0` for `a > 0` and
`x ^ 0 = 1`. -/

noncomputable def hillFunction (spend halfSaturation slope : ℝ) : ℝ :=
  100 * spend ^ slope / (halfSaturation ^ slope + spend ^ slope)

/-! ## Errors of the backend core (spec taxonomy) -/

inductive MMXError where
  | invalidParameterError
  | invalidStateError
  | duplicateDecisionError
  | infeasibleConstraintsError
deriving DecidableEq

/-- Modelled from the spec: the backend saturation transform
(`saturation.py`, absent from the sources; only the scaled chart helper
`hillFunction` is present). `response(x) = x^alpha / (gamma^alpha + x^alpha)`;
both `alpha ≤ 0` and `gamma ≤ 0` are rejected, failing fast with
`InvalidParameterError`, never clamped. -/
noncomputable def saturationTransform (x gamma alpha : ℝ) : Except MMXError ℝ :=
  if alpha ≤ 0 then Except.error MMXError.invalidParameterError
  else if gamma ≤ 0 then Except.error MMXError.invalidParameterError
  else Except.ok (x ^ alpha / (gamma ^ alpha + x ^ alpha))

/-- Auxiliary recursion for the carryover transform: `prev` is the effect
of the previous time step. -/
def carryoverAux (decay prev : ℚ) : List ℚ → List ℚ
  | [] => []
  | s :: rest =>
      let e := s + decay * prev
      e :: carryoverAux decay e rest

/-- Modelled from the spec: the backend carryover (adstock) transform
(`transformations.py`, absent from the sources):
`effect[t] = spend[t] + decay_rate * effect[t-1]`, `effect[-1] = 0`. -/
def carryover (decay : ℚ) (spend : List ℚ) : List ℚ :=
  carryoverAux decay 0 spend

/-! ## Stage pipeline UI updater (app.js, `updatePipelineUI`)

The controller keeps, per stage card, a status class and a progress-bar
percentage; `updatePipelineUI` maps backend stage names to frontend ids,
marks the current stage running, marks every earlier stage of the fixed
six-stage order completed with 100% progress, and sets the current stage
progress to `(progress % 20) * 5`. -/

def stages : List String :=
  ["segmentation", "trend", "baseline", "model", "budget", "insight"]

/-- The backend-to-frontend stage-name mapping of `updatePipelineUI`. -/
def mapStageId (s : String) : String :=
  if s = "trend_scanner" then "trend"
  else if s = "model_optimization" then "model"
  else if s = "budget_optimization" then "budget"
  else if s = "insight_generation" then "insight"
  else s

/-- The UI state of one stage card: its status badge and progress bar. -/
structure StageUI where
  status : String
  progress : ℤ
deriving DecidableEq

/-- The whole pipeline UI, one `StageUI` per stage card name. -/
abbrev StageMap : Type := String → StageUI

/-- `updateStageUI(stageName, status)`: set the status classes of one card. -/
def updateStageUI (ui : StageMap) (name status : String) : StageMap :=
  fun s => if s = name then { ui s with status := status } else ui s

/-- `setStageProgress(stageName, percent)`: set one card's progress bar. -/
def setStageProgress (ui : StageMap) (name : String) (percent : ℤ) : StageMap :=
  fun s => if s = name then { ui s with progress := percent } else ui s

/-- The `for (let i = 0; i < currentIndex; i++)` loop of `updatePipelineUI`:
mark each given stage completed with 100% progress, in order. -/
def completePriorStages (ui : StageMap) : List String → StageMap
  | [] => ui
  | s :: rest =>
      completePriorStages (setStageProgress (updateStageUI ui s completedStatus) s 100) rest

/-- `updatePipelineUI(statusData)` with `statusData = {current_stage, progress}`. -/
def updatePipelineUI (ui : StageMap) (currentStage : String) (progress : ℤ) : StageMap :=
  let stageId := mapStageId currentStage
  if stages.contains stageId then
    let uiRunning := updateStageUI ui stageId runningStatus
    let uiPrior := completePriorStages uiRunning (stages.take (stages.indexOf stageId))
    setStageProgress uiPrior stageId ((progress % 20) * 5)
  else ui

/-! ## Orchestrator stage advancement (spec-modelled) -/

/-- A pipeline run as the orchestrator sees it: current stage index into
the fixed stage order, and a status string. -/
structure OrchRun where
  stageIndex : ℕ
  status : String
deriving DecidableEq

def terminalStatuses : List String :=
  [completedStatus, failedStatus, abortedStatus]

/-- Modelled from the spec: the backend orchestrator (absent from the
sources) drives the fixed ordered stage sequence; `advance` executes the
next pending stage and moves to the following one, completing the run
after the last stage; terminal runs are not advanced. -/
def advanceRun (r : OrchRun) : OrchRun :=
  if terminalStatuses.contains r.status then r
  else if r.stageIndex + 1 < stages.length then
    { stageIndex := r.stageIndex + 1, status := runningStatus }
  else
    { stageIndex := r.stageIndex, status := completedStatus }

/-! ## Checkpoint gate (spec-modelled) -/

/-- The durable record of a run used by the checkpoint gate: status,
persisted stage artifacts (stage name, artifact reference), and whether a
checkpoint decision is pending. -/
structure PipelineRunRecord where
  status : String
  artifacts : List (String × String)
  checkpointPending : Bool
deriving DecidableEq

/-- Modelled from the spec: the backend checkpoint gate `record_decision`
(`checkpoints.py`, absent from the sources; the frontend
`handleCheckpointDecision` posts `{approved}` to it). Approval resumes the
run; rejection is terminal (`aborted`) and preserves all artifacts already
produced; re-recording fails with `DuplicateDecisionError`. -/
def recordDecision (r : PipelineRunRecord) (approved : Bool) :
    Except MMXError PipelineRunRecord :=
  if r.checkpointPending then
    if approved then
      Except.ok { r with status := runningStatus, checkpointPending := false }
    else
      Except.ok { r with status := abortedStatus, checkpointPending := false }
  else
    Except.error MMXError.duplicateDecisionError

/-! ## Budget optimizer revalidation (spec-modelled) -/

/-- Per-channel allocation bounds: fraction bounds of the total budget and
an optional absolute floor. -/
structure ChannelBounds where
  minFraction : ℚ
  maxFraction : ℚ
  absoluteMin : Option ℚ
deriving DecidableEq

/-- An optimization scenario: total budget and per-channel bounds. -/
structure Scenario where
  totalBudget : ℚ
  bounds : List ChannelBounds
deriving DecidableEq

/-- The fixed numerical tolerance of the budget-sum equality check. -/
def budgetTolerance : ℚ := 1 / 1000000

/-- The equality constraint `Σ spend_i = total_budget`, within `1e-6`
relative tolerance. -/
def budgetSumOk (alloc : List ℚ) (totalBudget : ℚ) : Bool :=
  |alloc.sum - totalBudget| ≤ budgetTolerance * totalBudget

/-- One channel's bound constraints at a given total budget. -/
def channelBoundOk (totalBudget : ℚ) (spend : ℚ) (b : ChannelBounds) : Bool :=
  b.minFraction * totalBudget ≤ spend && spend ≤ b.maxFraction * totalBudget &&
    (match b.absoluteMin with
     | some m => m ≤ spend
     | none => true)

/-- All per-channel bound constraints of a scenario. -/
def allBoundsOk (alloc : List ℚ) (sc : Scenario) : Bool :=
  alloc.length = sc.bounds.length &&
    (alloc.zip sc.bounds).all fun p => channelBoundOk sc.totalBudget p.1 p.2

/-- Modelled from the spec: the backend budget optimizer (absent from the
sources) runs a solver and then re-validates the returned allocation
against all constraints; any computed violation downgrades the result to
`InfeasibleConstraintsError` rather than being silently accepted. The
solver itself is passed as a parameter. -/
def optimize (solver : Scenario → List ℚ) (sc : Scenario) :
    Except MMXError (List ℚ) :=
  let alloc := solver sc
  if budgetSumOk alloc sc.totalBudget && allBoundsOk alloc sc then
    Except.ok alloc
  else
    Except.error MMXError.infeasibleConstraintsError

/-! ## Pipeline status poller (app.js, `pollPipelineStatus`)

`setInterval(async () => { ... }, 1000)`: the interval is cleared exactly
when the reported status is `completed`, `failed` or `stopped`; a thrown
request error is caught and logged, so polling continues. -/

def pollIntervalMs : ℕ := 1000

/-- Whether one polled status makes `pollPipelineStatus` clear its
interval (the only three `clearInterval` branches of the code). -/
def pollStops (status : String) : Bool :=
  status = completedStatus || status = failedStatus || status = stoppedStatus

/-- Whether the poller is still active at tick `n`, given the stream of
statuses reported by the backend at each earlier tick. -/
def pollerActive (statuses : ℕ → String) : ℕ → Bool
  | 0 => true
  | n + 1 => pollerActive statuses n && !(pollStops (statuses n))

/-! ## File drop handler (app.js, `handleDrop` / `uploadFile`) -/

/-- A dropped file, as the handler sees it. -/
structure JSFile where
  name : String
deriving DecidableEq

/-- The JavaScript `String.prototype.endsWith` check, modelled on the
character lists of the two strings. -/
def strEndsWith (s suffix : String) : Bool :=
  suffix.data.isSuffixOf s.data

/-- The controller state touched by the upload path. -/
structure AppState where
  fileId : Option String
deriving DecidableEq

/-- Observable effects of the drop handler: a notification
`showNotification(message, kind)` or an upload HTTP request. -/
inductive UIEffect where
  | notification (message kind : String)
  | uploadRequest (file : JSFile)
deriving DecidableEq

/-- `uploadFile(file)` up to the point the request is issued: it shows the
`Uploading ...` notification and sends the POST; the state is only changed
later, in the response handler. -/
def uploadFile (file : JSFile) (st : AppState) : AppState × List UIEffect :=
  (st, [UIEffect.notification (String.append (String.append ("Uploading ") file.name) ("...")) infoKind,
        UIEffect.uploadRequest file])

/-- `handleDrop(event)`: take the first dropped file; if present and its
name ends with `.csv`, upload it, else show the CSV error notification. -/
def handleDrop (dropped : Option JSFile) (st : AppState) : AppState × List UIEffect :=
  match dropped with
  | some file =>
      if strEndsWith file.name csvExtension then uploadFile file st
      else (st, [UIEffect.notification csvErrorMessage errorKind])
  | none => (st, [UIEffect.notification csvErrorMessage errorKind])

/-! ## React Data Studio status poller (DataStudio.jsx, `pollStatus`)

`setInterval(async () => { try { ... } catch (err) { clearInterval(interval);
setRunning(false); setError('Status check failed'); } }, 2000)`. -/

/-- The response of one status request: the reported status and the
backend error detail. -/
structure StatusResponse where
  status : String
  error : String
deriving DecidableEq

/-- The Data Studio component state touched by `pollStatus`: the `running`
flag, the `error` message, whether the interval is still set, and whether
the view navigated away on completion. -/
structure DataStudioState where
  running : Bool
  error : Option String
  polling : Bool
  navigated : Bool
deriving DecidableEq

/-- One tick of `pollStatus`: a successful request carries a
`StatusResponse`; a thrown request error is the `Except.error` case and is
handled by the `catch` block. -/
def pollStatusStep (result : Except String StatusResponse) (st : DataStudioState) :
    DataStudioState :=
  match result with
  | Except.ok res =>
      if res.status = completedStatus then
        { st with polling := false, running := false, navigated := true }
      else if res.status = failedStatus then
        { st with polling := false, running := false,
                  error := some (String.append ("Pipeline execution failed: ") res.error) }
      else st
  | Except.error _ =>
      { st with polling := false, running := false,
                error := some statusCheckFailedMessage }

/-- The poller over a finite list of request results: once the interval is
cleared (`polling = false`) no further tick runs. -/
def pollLoop (st : DataStudioState) : List (Except String StatusResponse) → DataStudioState
  | [] => st
  | r :: rest => pollLoop (if st.polling then pollStatusStep r st else st) rest

/-! ## Hill function: evaluation and shape -/

/-- Helper: `Math.pow(50, 2) = 2500` under the `rpow` model. -/
lemma rpow_fifty_two : (50 : ℝ) ^ (2 : ℝ) = 2500 := by
  rw [Real.rpow_two]
  norm_num

/-- Helper: `hillFunction(50, 50, 2)` evaluates to `50`. -/
lemma hillFunction_fifty : hillFunction 50 50 2 = 50 := by
  simp only [hillFunction, rpow_fifty_two]
  norm_num

/-- C1 (counterexample): as stated the claim is false on the code: at
spend `50`, `gamma = 50`, `alpha = 2` the source `hillFunction` returns
`50`, which is not below `1`, so the output is not bounded in `[0, 1)`. -/
theorem hillFunction_output_not_below_one : ¬ hillFunction 50 50 2 < 1 := by
  rw [hillFunction_fifty]
  norm_num

/-- C1 (amended): for `alpha > 0` and `gamma > 0` the source
`hillFunction` returns `0` at spend `0`, is monotonically non-decreasing
in spend, and its output on spend `x ≥ 0` is bounded in `[0, 100)` — the
code scales the Hill ratio by `100`, so the strict upper bound is `100`,
not `1`. -/
theorem hillFunction_zero_monotone_bounded (g a : ℝ) (hg : 0 < g) (ha : 0 < a) :
    hillFunction 0 g a = 0 ∧
    (∀ x y : ℝ, 0 ≤ x → x ≤ y → hillFunction x g a ≤ hillFunction y g a) ∧
    (∀ x : ℝ, 0 ≤ x → 0 ≤ hillFunction x g a ∧ hillFunction x g a < 100) := by
  have hc : (0 : ℝ) < g ^ a := Real.rpow_pos_of_pos hg a
  refine ⟨?_, ?_, ?_⟩
  · simp only [hillFunction, Real.zero_rpow ha.ne']
    simp
  · intro x y hx hxy
    simp only [hillFunction]
    have hu : (0 : ℝ) ≤ x ^ a := Real.rpow_nonneg hx a
    have huv : x ^ a ≤ y ^ a := Real.rpow_le_rpow hx hxy ha.le
    have h1 : (0 : ℝ) < g ^ a + x ^ a := by linarith
    have h2 : (0 : ℝ) < g ^ a + y ^ a := by linarith
    rw [div_le_div_iff₀ h1 h2]
    nlinarith
  · intro x hx
    simp only [hillFunction]
    have hu : (0 : ℝ) ≤ x ^ a := Real.rpow_nonneg hx a
    have h1 : (0 : ℝ) < g ^ a + x ^ a := by linarith
    constructor
    · positivity
    · rw [div_lt_iff₀ h1]
      nlinarith

/-- C1 (witness): the amended theorem instantiated at `gamma = 50`,
`alpha = 2`, spend `30`. -/
theorem hillFunction_zero_monotone_bounded_witness :
    hillFunction 0 50 2 = 0 ∧
    0 ≤ hillFunction 30 50 2 ∧ hillFunction 30 50 2 < 100 := by
  obtain ⟨h0, _, hb⟩ :=
    hillFunction_zero_monotone_bounded 50 2 (by norm_num) (by norm_num)
  exact ⟨h0, (hb 30 (by norm_num)).1, (hb 30 (by norm_num)).2⟩

/-- C2 (counterexample): as stated the claim is false on the code: the
source `hillFunction` at spend `50`, `gamma = 50`, `alpha = 2` does not
return `0.5`. -/
theorem hillFunction_fifty_not_half : hillFunction 50 50 2 ≠ 0.5 := by
  rw [hillFunction_fifty]
  norm_num

/-- C2 (amended): at spend `50`, half-saturation `50`, slope `2` the
source `hillFunction` returns exactly `50` (the Hill ratio `0.5` scaled by
the code's factor `100`). -/
theorem hillFunction_at_half_saturation : hillFunction 50 50 2 = 50 :=
  hillFunction_fifty

/-- C3: the spec-modelled saturation transform fails fast with
`InvalidParameterError` on any out-of-domain parameter (`alpha ≤ 0` or
`gamma ≤ 0`): it is never clamped and no numeric result is returned. -/
theorem saturationTransform_rejects_out_of_domain (x g a : ℝ)
    (h : a ≤ 0 ∨ g ≤ 0) :
    saturationTransform x g a = Except.error MMXError.invalidParameterError ∧
    ∀ r : ℝ, saturationTransform x g a ≠ Except.ok r := by
  have herr : saturationTransform x g a = Except.error MMXError.invalidParameterError := by
    rcases h with h | h
    · simp only [saturationTransform, if_pos h]
    · by_cases ha : a ≤ 0
      · simp only [saturationTransform, if_pos ha]
      · simp only [saturationTransform, if_neg ha, if_pos h]
  exact ⟨herr, fun r hr => by rw [herr] at hr; exact Except.noConfusion hr⟩

/-- C3 (witness): the transform at spend `50`, `gamma = 50`, `alpha = 0`
returns the `InvalidParameterError`, not a number. -/
theorem saturationTransform_rejects_witness :
    saturationTransform 50 50 0 = Except.error MMXError.invalidParameterError ∧
    ∀ r : ℝ, saturationTransform 50 50 0 ≠ Except.ok r :=
  saturationTransform_rejects_out_of_domain 50 50 0 (Or.inl le_rfl)

/-! ## Carryover transform: recurrence and worked example -/

/-- Helper: the carryover recursion preserves length. -/
lemma carryoverAux_length (d : ℚ) (s : List ℚ) :
    ∀ p : ℚ, (carryoverAux d p s).length = s.length := by
  induction s with
  | nil => intro p; rfl
  | cons x rest ih => intro p; simp [carryoverAux, ih]

/-- Helper: the recurrence satisfied by the carryover recursion, with
`p` as the effect of the step before the list. -/
lemma carryoverAux_getD (d : ℚ) (s : List ℚ) :
    ∀ (p : ℚ) (t : ℕ), t < s.length →
      (carryoverAux d p s).getD t 0 =
        s.getD t 0 + d * (if t = 0 then p else (carryoverAux d p s).getD (t - 1) 0) := by
  induction s with
  | nil => intro p t ht; simp at ht
  | cons x rest ih =>
    intro p t ht
    cases t with
    | zero => simp [carryoverAux]
    | succ n =>
      have hn : n < rest.length := by simpa using ht
      simp only [carryoverAux, List.getD_cons_succ]
      rw [ih (x + d * p) n hn]
      cases n with
      | zero => simp [carryoverAux]
      | succ m => simp [carryoverAux, List.getD_cons_succ]

/-- C4: for every `decay_rate ∈ [0, 1)` and every spend sequence, the
spec-modelled carryover transform satisfies
`effect[t] = spend[t] + decay_rate * effect[t-1]` with `effect[-1] = 0`;
and `decay_rate = 0.5` on spends `[100, 100, 100]` yields
`[100, 150, 175]`. -/
theorem carryover_recurrence_and_example :
    (∀ (d : ℚ) (s : List ℚ), 0 ≤ d → d < 1 →
      (carryover d s).length = s.length ∧
      ∀ t : ℕ, t < s.length →
        (carryover d s).getD t 0 =
          s.getD t 0 + d * (if t = 0 then 0 else (carryover d s).getD (t - 1) 0)) ∧
    carryover (1 / 2) [100, 100, 100] = [100, 150, 175] := by
  constructor
  · intro d s _ _
    exact ⟨carryoverAux_length d s 0, fun t ht => carryoverAux_getD d s 0 t ht⟩
  · norm_num [carryover, carryoverAux]

/-- C4 (witness): the recurrence instantiated at `decay_rate = 1/2`,
spends `[100, 100, 100]`, `t = 1`. -/
theorem carryover_recurrence_witness :
    (carryover (1 / 2) [100, 100, 100]).getD 1 0 =
      ([100, 100, 100] : List ℚ).getD 1 0 +
        (1 / 2) * (if (1 : ℕ) = 0 then 0 else (carryover (1 / 2) [100, 100, 100]).getD (1 - 1) 0) :=
  (carryover_recurrence_and_example.1 (1 / 2) [100, 100, 100]
    (by norm_num) (by norm_num)).2 1 (by norm_num)

/-! ## Stage UI updater: prior stages completed; stage index monotone -/

/-- Helper: an element never occurs strictly before its first occurrence. -/
lemma not_mem_take_indexOf {α : Type} [DecidableEq α] (a : α) (l : List α) :
    a ∉ l.take (l.indexOf a) := by
  induction l with
  | nil => simp
  | cons x xs ih =>
    by_cases hxa : x = a
    · subst hxa
      rw [List.indexOf_cons_self]
      simp
    · rw [List.indexOf_cons_ne _ hxa]
      simp only [List.take_succ_cons, List.mem_cons, not_or]
      exact ⟨fun h => hxa h.symm, ih⟩

/-- Helper: the completion loop leaves untouched any card not in its list. -/
lemma completePriorStages_not_mem (l : List String) :
    ∀ (ui : StageMap) (s : String), s ∉ l → completePriorStages ui l s = ui s := by
  induction l with
  | nil => intro ui s _; rfl
  | cons x rest ih =>
    intro ui s hs
    simp only [List.mem_cons, not_or] at hs
    simp only [completePriorStages]
    rw [ih _ s hs.2]
    simp [setStageProgress, updateStageUI, hs.1]

/-- Helper: the completion loop marks each card of its (duplicate-free)
list completed with 100% progress. -/
lemma completePriorStages_mem (l : List String) :
    ∀ (ui : StageMap) (s : String), s ∈ l → l.Nodup →
      completePriorStages ui l s = ⟨completedStatus, 100⟩ := by
  induction l with
  | nil => intro ui s hs _; simp at hs
  | cons x rest ih =>
    intro ui s hs hnd
    simp only [completePriorStages]
    rcases List.mem_cons.mp hs with h | h
    · subst h
      rw [completePriorStages_not_mem rest _ s (List.nodup_cons.mp hnd).1]
      simp [setStageProgress, updateStageUI]
    · exact ih _ s h (List.nodup_cons.mp hnd).2

/-- Helper: one status update marks every stage strictly before the
reported stage (in the fixed six-stage order) completed at 100%. -/
lemma updatePipelineUI_prior_completed (ui : StageMap) (cs : String) (p : ℤ) (t : String)
    (hcs : stages.contains (mapStageId cs) = true)
    (ht : t ∈ stages.take (stages.indexOf (mapStageId cs))) :
    updatePipelineUI ui cs p t = ⟨completedStatus, 100⟩ := by
  have hne : t ≠ mapStageId cs := fun h =>
    not_mem_take_indexOf (mapStageId cs) stages (h ▸ ht)
  have hndtake : (stages.take (stages.indexOf (mapStageId cs))).Nodup :=
    List.Nodup.sublist (List.take_sublist _ _) (by decide)
  simp only [updatePipelineUI, hcs, if_true]
  simp only [setStageProgress]
  rw [if_neg hne]
  exact completePriorStages_mem _ _ _ ht hndtake

/-- Helper: one orchestrator advance never lowers the stage index. -/
lemma stageIndex_le_advanceRun (r : OrchRun) :
    r.stageIndex ≤ (advanceRun r).stageIndex := by
  unfold advanceRun
  split_ifs <;> simp

/-- Helper: iterated orchestrator advances never lower the stage index. -/
lemma stageIndex_le_iterate (r : OrchRun) :
    ∀ k : ℕ, r.stageIndex ≤ (advanceRun^[k] r).stageIndex := by
  intro k
  induction k with
  | zero => simp
  | succ n ih =>
    rw [Function.iterate_succ_apply']
    exact le_trans ih (stageIndex_le_advanceRun _)

/-- C5: a run advances monotonically through its stage index: whenever a
status update reports a current stage of the fixed six-stage order, every
stage at a lower index is marked completed with 100% progress by
`updatePipelineUI`; and the spec-modelled orchestrator never moves a run
to a lower stage index at any later step. -/
theorem pipeline_prior_stages_completed_and_index_monotone :
    (∀ (ui : StageMap) (cs : String) (p : ℤ) (t : String),
        stages.contains (mapStageId cs) = true →
        t ∈ stages.take (stages.indexOf (mapStageId cs)) →
        updatePipelineUI ui cs p t = ⟨completedStatus, 100⟩) ∧
    (∀ (r : OrchRun) (n m : ℕ), n ≤ m →
        (advanceRun^[n] r).stageIndex ≤ (advanceRun^[m] r).stageIndex) := by
  constructor
  · intro ui cs p t hcs ht
    exact updatePipelineUI_prior_completed ui cs p t hcs ht
  · intro r n m h
    have hm : advanceRun^[m] r = advanceRun^[m - n] (advanceRun^[n] r) := by
      rw [← Function.iterate_add_apply, Nat.sub_add_cancel h]
    rw [hm]
    exact stageIndex_le_iterate _ _

/-- C5 (witness): a status update reporting the backend stage name
`model_optimization` (index 3 after mapping) marks the `trend` card
completed at 100%, and the orchestrator index after one advance is at most
the index after three advances. -/
theorem pipeline_prior_stages_completed_witness :
    updatePipelineUI (fun _ => ⟨pendingStatus, 0⟩) ("model_optimization") 37 ("trend") =
      ⟨completedStatus, 100⟩ ∧
    (advanceRun^[1] ⟨0, runningStatus⟩).stageIndex ≤
      (advanceRun^[3] ⟨0, runningStatus⟩).stageIndex :=
  ⟨pipeline_prior_stages_completed_and_index_monotone.1
      (fun _ => ⟨pendingStatus, 0⟩) ("model_optimization") 37 ("trend")
      (by decide) (by decide),
    pipeline_prior_stages_completed_and_index_monotone.2 ⟨0, runningStatus⟩ 1 3 (by norm_num)⟩

/-! ## Checkpoint rejection: aborted and artifacts preserved -/

/-- C6: for every run with a pending checkpoint, recording a rejection
(`approved = false`) succeeds with run status `aborted`, and every
artifact persisted before the rejection is preserved unchanged. -/
theorem recordDecision_reject_aborts_preserves_artifacts (r : PipelineRunRecord)
    (h : r.checkpointPending = true) :
    ∃ r2 : PipelineRunRecord, recordDecision r false = Except.ok r2 ∧
      r2.status = abortedStatus ∧ r2.artifacts = r.artifacts := by
  refine ⟨{ r with status := abortedStatus, checkpointPending := false }, ?_, rfl, rfl⟩
  simp [recordDecision, h]

/-- C6 (witness): rejecting the pending checkpoint of a run holding one
segmentation artifact aborts the run and keeps the artifact. -/
theorem recordDecision_reject_witness :
    ∃ r2 : PipelineRunRecord,
      recordDecision ⟨awaitingCheckpointStatus, [("segmentation", "artifact-1")], true⟩ false =
        Except.ok r2 ∧
      r2.status = abortedStatus ∧ r2.artifacts = [("segmentation", "artifact-1")] :=
  recordDecision_reject_aborts_preserves_artifacts
    ⟨awaitingCheckpointStatus, [("segmentation", "artifact-1")], true⟩ rfl

/-! ## Optimizer: every accepted allocation meets all constraints -/

/-- Helper: unfolding of one channel's bound check. -/
lemma channelBoundOk_spec (totalBudget spend : ℚ) (b : ChannelBounds)
    (h : channelBoundOk totalBudget spend b = true) :
    b.minFraction * totalBudget ≤ spend ∧ spend ≤ b.maxFraction * totalBudget ∧
      ∀ m, b.absoluteMin = some m → m ≤ spend := by
  simp only [channelBoundOk, Bool.and_eq_true, decide_eq_true_eq] at h
  refine ⟨h.1.1, h.1.2, ?_⟩
  intro m hm
  have h2 := h.2
  rw [hm] at h2
  simpa using h2

/-- C7: every allocation returned (not rejected) by the spec-modelled
optimizer sums to the scenario's total budget within the fixed `1e-6`
relative tolerance and respects every channel's configured bounds. -/
theorem optimize_result_meets_constraints (solver : Scenario → List ℚ) (sc : Scenario)
    (alloc : List ℚ) (h : optimize solver sc = Except.ok alloc) :
    |alloc.sum - sc.totalBudget| ≤ budgetTolerance * sc.totalBudget ∧
    alloc.length = sc.bounds.length ∧
    ∀ p ∈ alloc.zip sc.bounds,
      p.2.minFraction * sc.totalBudget ≤ p.1 ∧ p.1 ≤ p.2.maxFraction * sc.totalBudget ∧
      ∀ m, p.2.absoluteMin = some m → m ≤ p.1 := by
  simp only [optimize] at h
  by_cases hc : (budgetSumOk (solver sc) sc.totalBudget && allBoundsOk (solver sc) sc) = true
  · rw [if_pos hc] at h
    have halloc : solver sc = alloc := by
      injection h
    subst halloc
    rw [Bool.and_eq_true] at hc
    obtain ⟨h1, h2⟩ := hc
    simp only [allBoundsOk, Bool.and_eq_true, decide_eq_true_eq, List.all_eq_true] at h2
    refine ⟨?_, h2.1, ?_⟩
    · simpa [budgetSumOk] using h1
    · intro p hp
      exact channelBoundOk_spec sc.totalBudget p.1 p.2 (h2.2 p hp)
  · rw [if_neg hc] at h
    exact absurd h (by simp)

/-- C7 (witness): the two-channel example of the spec (total budget
1,000,000, fraction bounds [0.2, 0.6] and [0.4, 0.8]) with a solver
returning [600000, 400000]: the accepted allocation sums to the budget
within tolerance. -/
theorem optimize_result_witness :
    |([600000, 400000] : List ℚ).sum - (1000000 : ℚ)| ≤ budgetTolerance * 1000000 :=
  (optimize_result_meets_constraints (fun _ => [600000, 400000])
    ⟨1000000, [⟨1 / 5, 3 / 5, none⟩, ⟨2 / 5, 4 / 5, some 100⟩]⟩ [600000, 400000]
    (by norm_num [optimize, budgetSumOk, allBoundsOk, channelBoundOk, budgetTolerance])).1

/-! ## Status poller: stop set and indefinite polling -/

/-- C8: the poller clears its interval exactly on `completed`, `failed`
or `stopped`; on a stream of any other statuses (e.g. a run waiting on a
checkpoint) it stays active at every tick of the fixed interval,
indefinitely. -/
theorem pollPipelineStatus_stop_condition :
    (∀ s : String,
        pollStops s = true ↔ (s = completedStatus ∨ s = failedStatus ∨ s = stoppedStatus)) ∧
    (∀ f : ℕ → String, (∀ n, pollStops (f n) = false) → ∀ n, pollerActive f n = true) ∧
    pollIntervalMs = 1000 := by
  refine ⟨?_, ?_, rfl⟩
  · intro s
    simp [pollStops, Bool.or_eq_true, decide_eq_true_eq, or_assoc]
  · intro f hf n
    induction n with
    | zero => rfl
    | succ k ih => simp [pollerActive, ih, hf k]

/-- C8 (witness): a run reporting `awaiting_checkpoint` at every tick is
still polled at tick 5. -/
theorem pollPipelineStatus_witness :
    pollerActive (fun _ => awaitingCheckpointStatus) 5 = true := by
  have hf : ∀ n : ℕ, pollStops ((fun _ => awaitingCheckpointStatus) n) = false := by
    intro n
    simp [pollStops, awaitingCheckpointStatus, completedStatus, failedStatus, stoppedStatus]
  exact pollPipelineStatus_stop_condition.2.1 (fun _ => awaitingCheckpointStatus) hf 5

/-! ## Drop handler: CSV gating -/

/-- C9: for every dropped file, an upload request is issued iff the file
name ends with `.csv`; otherwise no request is made, exactly the CSV
error notification is shown, and the stored file id is unchanged. -/
theorem handleDrop_csv_gating (f : JSFile) (st : AppState) :
    ((UIEffect.uploadRequest f ∈ (handleDrop (some f) st).2) ↔
        strEndsWith f.name csvExtension = true) ∧
    (strEndsWith f.name csvExtension = false →
      (handleDrop (some f) st).2 = [UIEffect.notification csvErrorMessage errorKind] ∧
      (handleDrop (some f) st).1.fileId = st.fileId) := by
  constructor
  · constructor
    · intro hmem
      by_cases hcsv : strEndsWith f.name csvExtension = true
      · exact hcsv
      · rw [handleDrop, if_neg hcsv] at hmem
        simp at hmem
    · intro hcsv
      rw [handleDrop, if_pos hcsv]
      simp [uploadFile]
  · intro hcsv
    rw [handleDrop, if_neg (by simp [hcsv])]
    exact ⟨rfl, rfl⟩

/-- C9 (witness): dropping `data.csv` issues its upload request;
dropping `data.txt` leaves the stored file id unchanged. -/
theorem handleDrop_csv_witness :
    (UIEffect.uploadRequest ⟨"data.csv"⟩ ∈ (handleDrop (some ⟨"data.csv"⟩) ⟨none⟩).2) ∧
    (handleDrop (some ⟨"data.txt"⟩) ⟨some ("file-7")⟩).1.fileId = some ("file-7") :=
  ⟨(handleDrop_csv_gating ⟨"data.csv"⟩ ⟨none⟩).1.mpr (by decide),
    ((handleDrop_csv_gating ⟨"data.txt"⟩ ⟨some ("file-7")⟩).2 (by decide)).2⟩

/-! ## Data Studio poller: one failed request ends polling for good -/

/-- Helper: once the interval is cleared, no later tick changes the
component state. -/
lemma pollLoop_inactive (results : List (Except String StatusResponse)) :
    ∀ st : DataStudioState, st.polling = false → pollLoop st results = st := by
  induction results with
  | nil => intro st _; rfl
  | cons r rest ih =>
    intro st h
    simp only [pollLoop, h]
    exact ih st h

/-- C10: if any single status request throws during polling, the Data
Studio poller clears its interval, sets the running flag to false and
reports the `Status check failed` error; polling never resumes on any
sequence of later results. -/
theorem dataStudio_poll_error_stops (st : DataStudioState) (e : String)
    (_hp : st.polling = true) :
    (pollStatusStep (Except.error e) st).polling = false ∧
    (pollStatusStep (Except.error e) st).running = false ∧
    (pollStatusStep (Except.error e) st).error = some statusCheckFailedMessage ∧
    ∀ results : List (Except String StatusResponse),
      pollLoop (pollStatusStep (Except.error e) st) results = pollStatusStep (Except.error e) st := by
  refine ⟨rfl, rfl, rfl, ?_⟩
  intro results
  exact pollLoop_inactive results _ rfl

/-- C10 (witness): a running poller that hits one thrown request stops
for good with the `Status check failed` error. -/
theorem dataStudio_poll_error_witness :
    (pollStatusStep (Except.error ("network down")) ⟨true, none, true, false⟩).polling = false ∧
    (pollStatusStep (Except.error ("network down")) ⟨true, none, true, false⟩).error =
      some statusCheckFailedMessage :=
  ⟨(dataStudio_poll_error_stops ⟨true, none, true, false⟩ ("network down") rfl).1,
    (dataStudio_poll_error_stops ⟨true, none, true, false⟩ ("network down") rfl).2.2.1⟩
